import Mathlib

/-!
Shallow embedding of the core of the `listenandtalk` CELF-P3 dashboard:
score statistics (`scoreCalculator.js`, `dataParser.js`), the CSV record
normalizer (`dataParser.js`), the rule-retrieval engine
(`retrievalEngine.js`), the report assembler (`insightAssembler.js`) and
the heuristic insights panel (`InsightsPanel.jsx`).

Conventions of the embedding:
* JS numbers are modeled as `ℚ` (every comparison and arithmetic operation
  used by this code is exact); a nullable number is `Option ℚ` with `none`
  for JS `null`/`undefined`, and `NaN` never arises for an `Option ℚ`
  produced by the embedded parsers (the code maps `NaN` to `null`).
* A field that can be JS `undefined` as well as `null` (an absent object
  key) is modeled as `Option (Option ℚ)`: `none` = `undefined`,
  `some none` = `null`, `some (some q)` = a number.
* JS objects used as string-keyed maps are association lists in key
  insertion order; `Object.entries`/`Object.keys` enumerate that order.
* `Array.prototype.sort` is in place and (per ES2019) stable, so it is
  modeled by a stable insertion sort, and each function that calls it on a
  caller-supplied array returns the final array contents as a second
  component (explicit state passing for the mutation).
* JS `Date` values attached to assessment records are modeled as integer
  timestamps; the comparator `new Date(b.date) - new Date(a.date)` is the
  integer comparison.
-/

namespace ListenAndTalk

attribute [local semireducible] Rat.add Rat.mul Rat.sub Rat.inv

/-- `NORMATIVE_PARAMS` of `scoreCalculator.js` together with the lookup
`NORMATIVE_PARAMS[type] || NORMATIVE_PARAMS.standard` in
`calculateZScore`: `scaled` has `(mean, sd) = (10, 3)`, any other type
string falls back to `standard` `(100, 15)`. -/
def NORMATIVE_PARAMS (ty : String) : ℚ × ℚ :=
  if ty = "scaled" then (10, 3) else (100, 15)

/-- `calculateZScore(score, type = 'standard')` of `scoreCalculator.js`:
`null`/`undefined`/`NaN` input gives `null`, otherwise
`(score - mean) / sd` of the resolved parameters. -/
def calculateZScore (score : Option ℚ) (ty : String) : Option ℚ :=
  match score with
  | none => none
  | some s => some ((s - (NORMATIVE_PARAMS ty).1) / (NORMATIVE_PARAMS ty).2)

/-- `getNormativeBand(zScore)` of `scoreCalculator.js`: `No Data` for
`null`/`undefined`/`NaN`, otherwise the five-bucket else-if chain with
closed-below / open-above thresholds. -/
def getNormativeBand (zScore : Option ℚ) : String :=
  match zScore with
  | none => "No Data"
  | some z =>
    if z ≤ -2 then "Significantly Below Average"
    else if z ≤ -1 then "Below Average"
    else if z ≤ 1 then "Average"
    else if z ≤ 2 then "Above Average"
    else "Significantly Above Average"

/-- `getScoreInterpretation(score, mean = 100, sd = 15)` of
`dataParser.js`: the same five-bucket chain computed from a raw score and
explicit `(mean, sd)` parameters. -/
def getScoreInterpretation (score : Option ℚ) (mean sd : ℚ) : String :=
  match score with
  | none => "No Data"
  | some s =>
    let z := (s - mean) / sd
    if z ≤ -2 then "Significantly Below Average"
    else if z ≤ -1 then "Below Average"
    else if z ≤ 1 then "Average"
    else if z ≤ 2 then "Above Average"
    else "Significantly Above Average"

/-- `getNormativeParams(testType = 'standard')` of `dataParser.js`. -/
def getNormativeParams (testType : String) : ℚ × ℚ :=
  if testType = "scaled" then (10, 3) else (100, 15)

/-- Ordinal position of the five band labels, for stating monotonicity:
`Significantly Below Average < Below Average < Average < Above Average <
Significantly Above Average` (any other string is ranked above all five). -/
def bandRank (s : String) : ℕ :=
  if s = "Significantly Below Average" then 0
  else if s = "Below Average" then 1
  else if s = "Average" then 2
  else if s = "Above Average" then 3
  else if s = "Significantly Above Average" then 4
  else 5

/-- The five band labels in ordinal order. -/
def bandLabels : List String :=
  ["Significantly Below Average", "Below Average", "Average",
   "Above Average", "Significantly Above Average"]

/-- Model of JS `String.prototype.trim`: strip whitespace from both
ends. -/
def jsTrim (s : String) : String :=
  ⟨((s.toList.dropWhile (fun c => c.isWhitespace)).reverse.dropWhile
      (fun c => c.isWhitespace)).reverse⟩

/-- Longest digit run at the front of a character list, and the rest;
used to model the JS builtin `parseFloat` and the date regexes. -/
def digitSpan : List Char → List Char × List Char
  | [] => ([], [])
  | c :: cs =>
    if c.isDigit then
      let p := digitSpan cs
      (c :: p.1, p.2)
    else ([], c :: cs)

/-- Numeric value of a decimal digit run. -/
def digitsVal (ds : List Char) : ℕ :=
  ds.foldl (fun a c => a * 10 + (c.toNat - 48)) 0

/-- Model of the JS builtin `parseFloat` on the decimal fragment this code
feeds it: skip leading whitespace, optional sign, integer digits, optional
`.` and fraction digits, reading the longest numeric text at the front and
ignoring everything after it; `none` models the `NaN` result when no
numeric text is found (exponent suffixes, which never occur in this data,
are read as trailing garbage). -/
def jsParseFloat (s : String) : Option ℚ :=
  let cs := s.toList.dropWhile (fun c => c.isWhitespace)
  let signAndRest : ℚ × List Char :=
    match cs with
    | '-' :: r => (-1, r)
    | '+' :: r => (1, r)
    | _ => (1, cs)
  let ip := digitSpan signAndRest.2
  let fp : List Char × List Char :=
    match ip.2 with
    | '.' :: r => digitSpan r
    | _ => ([], ip.2)
  if ip.1.isEmpty ∧ fp.1.isEmpty then none
  else some (signAndRest.1 * ((digitsVal ip.1 : ℚ) + (digitsVal fp.1 : ℚ) / 10 ^ fp.1.length))

/-- `parseNumber(value)` of `dataParser.js`: the sentinels `''`, `'#N/A'`,
`'-1'` (and a JS `undefined` field, modeled by `none`) give `null`;
otherwise `parseFloat`, with `NaN` mapped to `null`. -/
def parseNumber (value : Option String) : Option ℚ :=
  match value with
  | none => none
  | some v =>
    if v = "" ∨ v = "#N/A" ∨ v = "-1" then none
    else jsParseFloat v

/-- Exactly `n` decimal digits from the front of the list (accumulating
their value), or `none`. -/
def exactDigits : ℕ → ℕ → List Char → Option (ℕ × List Char)
  | 0, acc, cs => some (acc, cs)
  | _ + 1, _, [] => none
  | n + 1, acc, c :: cs =>
    if c.isDigit then exactDigits n (acc * 10 + (c.toNat - 48)) cs else none

/-- One character, exactly. -/
def expectChar (c : Char) : List Char → Option (List Char)
  | [] => none
  | x :: xs => if x = c then some xs else none

/-- One backtracking attempt of the regex `(\d{1,2})\/(\d{1,2})\/(\d{4})`
at the current position, with the month and day runs fixed to `mlen` and
`dlen` digits. -/
def tryMDY (mlen dlen : ℕ) (cs : List Char) : Option (ℕ × ℕ × ℕ) :=
  match exactDigits mlen 0 cs with
  | none => none
  | some (m, r1) =>
    match expectChar '/' r1 with
    | none => none
    | some r2 =>
      match exactDigits dlen 0 r2 with
      | none => none
      | some (d, r3) =>
        match expectChar '/' r3 with
        | none => none
        | some r4 =>
          match exactDigits 4 0 r4 with
          | none => none
          | some (y, _) => some (m, d, y)

/-- The regex `(\d{1,2})\/(\d{1,2})\/(\d{4})` at the current position:
greedy `\d{1,2}` runs try two digits before one, outer group first. -/
def matchMDYat (cs : List Char) : Option (ℕ × ℕ × ℕ) :=
  match tryMDY 2 2 cs with
  | some v => some v
  | none =>
    match tryMDY 2 1 cs with
    | some v => some v
    | none =>
      match tryMDY 1 2 cs with
      | some v => some v
      | none => tryMDY 1 1 cs

/-- One backtracking attempt of the regex `(\d{4})-(\d{1,2})-(\d{1,2})` at
the current position. -/
def tryYMD (mlen dlen : ℕ) (cs : List Char) : Option (ℕ × ℕ × ℕ) :=
  match exactDigits 4 0 cs with
  | none => none
  | some (y, r1) =>
    match expectChar '-' r1 with
    | none => none
    | some r2 =>
      match exactDigits mlen 0 r2 with
      | none => none
      | some (m, r3) =>
        match expectChar '-' r3 with
        | none => none
        | some r4 =>
          match exactDigits dlen 0 r4 with
          | none => none
          | some (d, _) => some (y, m, d)

/-- The regex `(\d{4})-(\d{1,2})-(\d{1,2})` at the current position. -/
def matchYMDat (cs : List Char) : Option (ℕ × ℕ × ℕ) :=
  match tryYMD 2 2 cs with
  | some v => some v
  | none =>
    match tryYMD 2 1 cs with
    | some v => some v
    | none =>
      match tryYMD 1 2 cs with
      | some v => some v
      | none => tryYMD 1 1 cs

/-- Leftmost match of an unanchored regex: `String.prototype.match` tries
the pattern at every position from the left. -/
def findMatch (f : List Char → Option (ℕ × ℕ × ℕ)) : List Char → Option (ℕ × ℕ × ℕ)
  | [] => f []
  | c :: cs =>
    match f (c :: cs) with
    | some v => some v
    | none => findMatch f cs

/-- A parsed calendar date. `parseDate` builds
`new Date(year, month - 1, day)`; the embedding keeps the matched
`(year, month, day)` triple and does not model the JS `Date` constructor's
normalization of out-of-range components. -/
structure YMD where
  year : ℕ
  month : ℕ
  day : ℕ
deriving DecidableEq, Repr

/-- `parseDate(dateStr)` of `dataParser.js`: `null` for a missing or blank
string, else the first `M/D/YYYY` regex match anywhere in the string, else
the first `YYYY-M-D` regex match anywhere, else `null`. Both regexes are
unanchored substring searches. -/
def parseDate (dateStr : Option String) : Option YMD :=
  match dateStr with
  | none => none
  | some s =>
    if jsTrim s = "" then none
    else
      match findMatch matchMDYat s.toList with
      | some (m, d, y) => some ⟨y, m, d⟩
      | none =>
        match findMatch matchYMDat s.toList with
        | some (y, m, d) => some ⟨y, m, d⟩
        | none => none

/-- `TEST_NAMES` of `dataParser.js`, in object-literal insertion order. -/
def TEST_NAMES : List (String × String) :=
  [("SC", "Sentence Comprehension"), ("WS", "Word Structure"),
   ("EV", "Expressive Vocabulary"), ("FD", "Formulated Sentences"),
   ("RS", "Recalling Sentences"), ("BC", "Basic Concepts"),
   ("WC", "Word Classes"), ("PA", "Phonological Awareness"),
   ("DPP", "Following Directions"), ("PRS", "Understanding Spoken Paragraphs"),
   ("CLS", "Core Language Score"), ("RLI", "Receptive Language Index"),
   ("ELI", "Expressive Language Index"), ("LCI", "Language Content Index"),
   ("LSI", "Language Structure Index"), ("ALRI", "Academic Language Readiness Index"),
   ("ErLi", "Early Literacy Index")]

/-- One test's parsed sub-scores, as built by `extractTestData`. -/
structure TestResult where
  standardScore : Option ℚ
  scaledScore : Option ℚ
  percentile : Option ℚ
  rawScore : Option ℚ
  testName : String
deriving DecidableEq, Repr

/-- A raw CSV row: a string-keyed map, `none` for an absent column. -/
structure CSVRow where
  fields : String → Option String

/-- One normalized assessment record, as built by `processCSVData`. -/
structure ProcessedRecord where
  studentId : String
  studentName : String
  date : YMD
  age : Option ℚ
  tests : List (String × TestResult)
deriving DecidableEq, Repr

/-- `TEST_NAMES[prefix]` lookup. -/
def lookupName (k : String) : Option String :=
  (TEST_NAMES.find? (fun kv => kv.1 == k)).map (fun kv => kv.2)

/-- `extractTestData(row, prefix)` of `dataParser.js`: the four
`{code}_{Suffix}` numeric columns; kept only when the standard or scaled
score is non-null. -/
def extractTestData (row : CSVRow) (code : String) : Option TestResult :=
  let standardScore := parseNumber (row.fields (code ++ "_StandardScore"))
  let scaledScore := parseNumber (row.fields (code ++ "_ScaledScore"))
  let percentile := parseNumber (row.fields (code ++ "_PctRank"))
  let rawScore := parseNumber (row.fields (code ++ "_RawScore"))
  if standardScore = none ∧ scaledScore = none then none
  else
    some { standardScore := standardScore, scaledScore := scaledScore,
           percentile := percentile, rawScore := rawScore,
           testName := (lookupName code).getD code }

/-- The `tests` object built by the per-code loop of `processCSVData`,
in `TEST_NAMES` key order. -/
def extractAllTests (row : CSVRow) : List (String × TestResult) :=
  TEST_NAMES.foldl (fun acc p =>
    match extractTestData row p.1 with
    | some td => acc ++ [(p.1, td)]
    | none => acc) []

/-- The body of the row loop of `processCSVData` of `dataParser.js`:
`none` when the row is skipped (missing/blank/`#N/A` id, or no test with a
standard or scaled score), otherwise the normalized record. An
unparseable date falls back to the load time (`new Date()`), modeled by
the `loadTime` argument. -/
def processRow (loadTime : YMD) (row : CSVRow) : Option ProcessedRecord :=
  match row.fields "LT_Id" with
  | none => none
  | some idRaw =>
    if idRaw = "" ∨ jsTrim idRaw = "" ∨ idRaw = "#N/A" then none
    else
      let studentId := jsTrim idRaw
      let studentName :=
        match row.fields "Child_Initials" with
        | some ci => if jsTrim ci = "" then "Student " ++ studentId else jsTrim ci
        | none => "Student " ++ studentId
      let date := parseDate (row.fields "AssessmentDate")
      let age := parseNumber (row.fields "Age")
      let tests := extractAllTests row
      if tests.isEmpty then none
      else
        some { studentId := studentId, studentName := studentName,
               date := date.getD loadTime, age := age, tests := tests }

/-- `processCSVData(rawData)` of `dataParser.js`. -/
def processCSVData (loadTime : YMD) (rawData : List CSVRow) : List ProcessedRecord :=
  rawData.filterMap (processRow loadTime)

/-- A sample raw row whose date string matches neither date pattern. -/
def unparseableDateRow : CSVRow :=
  ⟨fun k =>
    (([("LT_Id", "S1"), ("AssessmentDate", "sometime soon"),
       ("EV_StandardScore", "80")] : List (String × String)).find?
      (fun kv => kv.1 == k)).map (fun kv => kv.2)⟩

/-- The record the row loop builds from `unparseableDateRow` at load time
2026-01-01. -/
def unparseableDateRecord : ProcessedRecord :=
  { studentId := "S1", studentName := "Student S1",
    date := ⟨2026, 1, 1⟩, age := none,
    tests := [("EV", { standardScore := some 80, scaledScore := none,
                       percentile := none, rawScore := none,
                       testName := "Expressive Vocabulary" })] }

/-- The `score_range` object of a knowledge-base entry: each bound is
optional (`undefined` when absent). Single-score rules use
`min_z`/`max_z`; `Composite Comparison` rules use
`min_z_diff`/`max_z_diff`. -/
structure ScoreRange where
  min_z : Option ℚ
  max_z : Option ℚ
  min_z_diff : Option ℚ
  max_z_diff : Option ℚ
deriving DecidableEq, Repr

/-- One entry of the static knowledge base
(`celf_interpretations.json`), with the fields the engine and assembler
read; `details` and `recommendations` can be absent. -/
structure InterpEntry where
  test_type : String
  test_abbreviation : String
  audience : String
  score_range : Option ScoreRange
  title : String
  summary : String
  details : Option String
  source : String
  recommendations : Option (List String)
deriving DecidableEq, Repr

/-- `matchesScoreRange(zScore, range)` of `retrievalEngine.js`: false for
`null`/`undefined`/`NaN`, else each defined bound is an inclusive
constraint (`zScore < min_z` or `zScore > max_z` rejects). -/
def matchesScoreRange (zScore : Option ℚ) (range : ScoreRange) : Bool :=
  match zScore with
  | none => false
  | some z =>
    (match range.min_z with
     | some m => decide (m ≤ z)
     | none => true) &&
    (match range.max_z with
     | some m => decide (z ≤ m)
     | none => true)

/-- `matchesZDiffRange(zDiff, range)` of `retrievalEngine.js`. -/
def matchesZDiffRange (zDiff : Option ℚ) (range : ScoreRange) : Bool :=
  match zDiff with
  | none => false
  | some z =>
    (match range.min_z_diff with
     | some m => decide (m ≤ z)
     | none => true) &&
    (match range.max_z_diff with
     | some m => decide (z ≤ m)
     | none => true)

/-- The filter callback of `retrieveTestInterpretations`: test-type match
(name, abbreviation, or the `Composite Comparison` special case), then
audience, then score range, with `Composite Comparison` entries rejected
inside the range branch and entries without a `score_range` rejected. -/
def singleQueryFilter (testName testAbbreviation : String) (zScore : Option ℚ)
    (audience : String) (entry : InterpEntry) : Bool :=
  if entry.test_type = testName ∨ entry.test_abbreviation = testAbbreviation ∨
      entry.test_type = "Composite Comparison" then
    if entry.audience = audience then
      match entry.score_range with
      | some range =>
        if entry.test_type = "Composite Comparison" then false
        else matchesScoreRange zScore range
      | none => false
    else false
  else false

/-- `retrieveTestInterpretations({testName, testAbbreviation,
standardScore, audience})` of `retrievalEngine.js`. The guard
`!standardScore || isNaN(standardScore)` returns `[]` for `null` /
`undefined` (modeled by `none`) and for the falsy score `0`; `NaN` cannot
arise for an embedded `Option ℚ` score. -/
def retrieveTestInterpretations (kb : List InterpEntry) (testName testAbbreviation : String)
    (standardScore : Option ℚ) (audience : String) : List InterpEntry :=
  match standardScore with
  | none => []
  | some s =>
    if s = 0 then []
    else
      kb.filter (singleQueryFilter testName testAbbreviation
        (calculateZScore (some s) "standard") audience)

/-- `retrieveCompositeComparisons({receptiveZScore, expressiveZScore,
audience})` of `retrievalEngine.js`. -/
def retrieveCompositeComparisons (kb : List InterpEntry) (receptiveZScore expressiveZScore : Option ℚ)
    (audience : String) : List InterpEntry :=
  match receptiveZScore, expressiveZScore with
  | some rz, some ez =>
    let zDiff := rz - ez
    kb.filter (fun entry =>
      if entry.test_type = "Composite Comparison" then
        if entry.audience = audience then
          match entry.score_range with
          | some range => matchesZDiffRange (some zDiff) range
          | none => false
        else false
      else false)
  | _, _ => []

/-- One assessment record as consumed by the engine, assembler and
insights panel: an integer date timestamp and the `tests` object in key
insertion order. -/
structure Assessment where
  date : ℤ
  tests : List (String × TestResult)
deriving DecidableEq, Repr

/-- Insert into a descending-by-date sorted list, keeping earlier-array
elements before later ones on ties: the stable in-place
`sort((a, b) => new Date(b.date) - new Date(a.date))`. -/
def insertDesc (a : Assessment) : List Assessment → List Assessment
  | [] => [a]
  | b :: bs => if a.date < b.date then b :: insertDesc a bs else a :: b :: bs

/-- Stable descending-by-date sort (the result the ES2019 stable
`Array.prototype.sort` leaves in the mutated array). -/
def sortByDateDesc : List Assessment → List Assessment
  | [] => []
  | a :: as => insertDesc a (sortByDateDesc as)

/-- Insert into an ascending-by-date sorted list, keeping earlier-array
elements before later ones on ties. -/
def insertAsc (a : Assessment) : List Assessment → List Assessment
  | [] => [a]
  | b :: bs => if b.date < a.date then b :: insertAsc a bs else a :: b :: bs

/-- Stable ascending-by-date sort, for
`[...assessments].sort((a, b) => new Date(a.date) - new Date(b.date))`. -/
def sortByDateAsc : List Assessment → List Assessment
  | [] => []
  | a :: as => insertAsc a (sortByDateAsc as)

/-- Key lookup in a `tests` object. -/
def lookupTest (tests : List (String × TestResult)) (k : String) : Option TestResult :=
  (tests.find? (fun kv => kv.1 == k)).map (fun kv => kv.2)

/-- The body of the per-test loop of `retrieveAllInterpretations`. -/
def perTestStep (kb : List InterpEntry) (audience : String) (acc : List InterpEntry)
    (kv : String × TestResult) : List InterpEntry :=
  match kv.2.standardScore with
  | none => acc
  | some s =>
    if s = 0 then acc
    else
      acc ++ retrieveTestInterpretations kb
        (if kv.2.testName = "" then kv.1 else kv.2.testName) kv.1 (some s) audience

/-- The per-test loop of `retrieveAllInterpretations`: a falsy (`null` or
`0`) standard score is skipped (`if (!testData.standardScore) continue`),
otherwise the single-score retrieval with `testData.testName || testKey`
is appended. -/
def perTestMatches (kb : List InterpEntry) (audience : String) (latest : Assessment) : List InterpEntry :=
  latest.tests.foldl (perTestStep kb audience) []

/-- The composite block of `retrieveAllInterpretations`: runs only when
both RLI and ELI exist with truthy standard scores. -/
def compositeMatches (kb : List InterpEntry) (audience : String) (latest : Assessment) : List InterpEntry :=
  match lookupTest latest.tests "RLI", lookupTest latest.tests "ELI" with
  | some rli, some eli =>
    match rli.standardScore, eli.standardScore with
    | some rs, some es =>
      if rs = 0 ∨ es = 0 then []
      else
        retrieveCompositeComparisons kb (calculateZScore (some rs) "standard")
          (calculateZScore (some es) "standard") audience
    | _, _ => []
  | _, _ => []

/-- `retrieveAllInterpretations({assessments, audience})` of
`retrievalEngine.js`. The in-place `assessments.sort(...)` is modeled by
returning the final array contents as the second component. -/
def retrieveAllInterpretations (kb : List InterpEntry) (assessments : List Assessment)
    (audience : String) : List InterpEntry × List Assessment :=
  if assessments.isEmpty then ([], assessments)
  else
    match sortByDateDesc assessments with
    | [] => ([], [])
    | latest :: rest =>
      (perTestMatches kb audience latest ++ compositeMatches kb audience latest,
       latest :: rest)

/-- The spec's single-score matching predicate, stated from the spec's
words: `(rule.testType == testName OR rule.testAbbreviation ==
testAbbrev) AND rule.audience == audience AND rule.testType !=
"Composite Comparison" AND` the z-score satisfies `rule.scoreRange`
(inclusive bounds where present, an absent bound unconstrained on that
side). -/
def specSingleMatch (testName testAbbreviation audience : String) (z : ℚ)
    (entry : InterpEntry) : Bool :=
  (decide (entry.test_type = testName) || decide (entry.test_abbreviation = testAbbreviation)) &&
  decide (entry.audience = audience) &&
  !decide (entry.test_type = "Composite Comparison") &&
  (match entry.score_range with
   | some range =>
     (match range.min_z with
      | some m => decide (m ≤ z)
      | none => true) &&
     (match range.max_z with
      | some m => decide (z ≤ m)
      | none => true)
   | none => true)

/-- The `student` object handed to the assembler (`{id, name}`). -/
structure StudentRef where
  id : String
  name : String
deriving DecidableEq, Repr

/-- One transformed knowledge-base entry inside an insight response
(title/summary/details/source/recommendations). -/
structure InsightItem where
  title : String
  summary : String
  details : String
  source : String
  recommendations : List String
deriving DecidableEq, Repr

/-- One `testInsights` element of the assembled report. `zScore` keeps the
rational value whose `toFixed(2)` rendering the code stores. -/
structure TestInsight where
  test : String
  testAbbreviation : String
  score : Option ℚ
  zScore : Option ℚ
  normativeBand : String
  insights : List InsightItem
  retrievedCount : ℕ
deriving DecidableEq, Repr

/-- One `comparisons` element of the assembled report. `zDifference`
keeps the rational value whose `toFixed(2)` rendering the code stores. -/
structure Comparison where
  type : String
  receptiveScore : Option ℚ
  expressiveScore : Option ℚ
  zDifference : Option ℚ
  insights : List InsightItem
  retrievedCount : ℕ
deriving DecidableEq, Repr

/-- The assembled report. `studentId` and `assessmentDate` are absent
(`none`) on the empty-input early return. -/
structure Report where
  student : String
  studentId : Option String
  audience : String
  assessmentDate : Option ℤ
  testInsights : List TestInsight
  comparisons : List Comparison
  totalRetrieved : ℕ
deriving DecidableEq, Repr

/-- `entry.details || entry.summary` and
`entry.recommendations || []` applied to one retrieved entry. -/
def toInsightItem (entry : InterpEntry) : InsightItem :=
  { title := entry.title, summary := entry.summary,
    details :=
      (match entry.details with
       | some d => if d = "" then entry.summary else d
       | none => entry.summary),
    source := entry.source,
    recommendations := entry.recommendations.getD [] }

/-- `assembleComparisonInsights({receptiveScore, expressiveScore,
retrievedEntries})` of `insightAssembler.js`. In
`receptiveZ - expressiveZ` a JS `null` operand coerces to `0`; the call
sites only pass truthy scores, for which both z-scores are numbers. -/
def assembleComparisonInsights (receptiveScore expressiveScore : Option ℚ)
    (retrievedEntries : List InterpEntry) : Option Comparison :=
  if retrievedEntries.isEmpty then none
  else
    let receptiveZ := calculateZScore receptiveScore "standard"
    let expressiveZ := calculateZScore expressiveScore "standard"
    let zDiff : ℚ := receptiveZ.getD 0 - expressiveZ.getD 0
    some { type := "composite_comparison",
           receptiveScore := receptiveScore, expressiveScore := expressiveScore,
           zDifference := some zDiff,
           insights := retrievedEntries.map toInsightItem,
           retrievedCount := retrievedEntries.length }

/-- The body of the grouping loop of `assembleCompleteReport`: composite
entries are collected separately; a non-composite entry is attached to
the (unique) `testInsights` element of its abbreviation, created on first
sight, and only when the latest assessment has a truthy standard score
for that test. -/
def assembleGroupStep (latest : Assessment) (acc : List TestInsight × List InterpEntry)
    (entry : InterpEntry) : List TestInsight × List InterpEntry :=
  if entry.test_type = "Composite Comparison" then (acc.1, acc.2 ++ [entry])
  else
    match lookupTest latest.tests entry.test_abbreviation with
    | none => acc
    | some testData =>
      match testData.standardScore with
      | none => acc
      | some s =>
        if s = 0 then acc
        else
          if acc.1.any (fun t => t.testAbbreviation == entry.test_abbreviation) then
            (acc.1.map (fun t =>
              if t.testAbbreviation == entry.test_abbreviation then
                { t with insights := t.insights ++ [toInsightItem entry],
                         retrievedCount := t.retrievedCount + 1 }
              else t), acc.2)
          else
            (acc.1 ++ [{ test := entry.test_type,
                         testAbbreviation := entry.test_abbreviation,
                         score := some s,
                         zScore := calculateZScore (some s) "standard",
                         normativeBand := getNormativeBand (calculateZScore (some s) "standard"),
                         insights := [toInsightItem entry],
                         retrievedCount := 1 }], acc.2)

/-- The comparisons block of `assembleCompleteReport`: only when some
`Composite Comparison` entries were retrieved and both RLI and ELI have
truthy standard scores in the latest assessment. -/
def assembleComparisonsBlock (latest : Assessment) (comparisonEntries : List InterpEntry) : List Comparison :=
  if comparisonEntries.isEmpty then []
  else
    match lookupTest latest.tests "RLI", lookupTest latest.tests "ELI" with
    | some rli, some eli =>
      match rli.standardScore, eli.standardScore with
      | some rs, some es =>
        if rs = 0 ∨ es = 0 then []
        else
          match assembleComparisonInsights (some rs) (some es) comparisonEntries with
          | some comparison => [comparison]
          | none => []
      | _, _ => []
    | _, _ => []

/-- `assembleCompleteReport({student, assessments, allRetrievedEntries,
audience})` of `insightAssembler.js`. The in-place
`assessments.sort(...)` is modeled by returning the final array contents
as the second component; the early return for empty assessments or
entries does not sort. The diagnostic wall-clock `timestamp` field is not
modeled. -/
def assembleCompleteReport (student : Option StudentRef) (assessments : List Assessment)
    (allRetrievedEntries : List InterpEntry) (audience : String) : Report × List Assessment :=
  if assessments.isEmpty ∨ allRetrievedEntries.isEmpty then
    ({ student :=
         (match student with
          | some st => if st.name = "" then "Unknown" else st.name
          | none => "Unknown"),
       studentId := none, audience := audience, assessmentDate := none,
       testInsights := [], comparisons := [], totalRetrieved := 0 }, assessments)
  else
    match sortByDateDesc assessments with
    | [] =>
      ({ student := "Unknown", studentId := none, audience := audience,
         assessmentDate := none, testInsights := [], comparisons := [],
         totalRetrieved := 0 }, [])
    | latest :: rest =>
      let grouped := allRetrievedEntries.foldl (assembleGroupStep latest) ([], [])
      let comparisons := assembleComparisonsBlock latest grouped.2
      ({ student :=
           (match student with
            | some st => if st.name = "" then "Unknown" else st.name
            | none => "Unknown"),
         studentId :=
           (match student with
            | some st => if st.id = "" then none else some st.id
            | none => none),
         audience := audience,
         assessmentDate := some latest.date,
         testInsights := grouped.1,
         comparisons := comparisons,
         totalRetrieved := allRetrievedEntries.length }, latest :: rest)

/-- One below/above-average list item of the insights panel, before
string formatting; `score` keeps the number the filter guaranteed
non-null. -/
structure ScoreItem where
  test : String
  score : ℚ
  interpretation : String
deriving DecidableEq, Repr

/-- Stable ascending-by-score insert (`sort((a, b) => a.score - b.score)`). -/
def insertScoreAsc (a : ScoreItem) : List ScoreItem → List ScoreItem
  | [] => [a]
  | b :: bs => if b.score < a.score then b :: insertScoreAsc a bs else a :: b :: bs

/-- Stable ascending-by-score sort. -/
def sortScoreAsc : List ScoreItem → List ScoreItem
  | [] => []
  | a :: as => insertScoreAsc a (sortScoreAsc as)

/-- Stable descending-by-score insert (`sort((a, b) => b.score - a.score)`). -/
def insertScoreDesc (a : ScoreItem) : List ScoreItem → List ScoreItem
  | [] => [a]
  | b :: bs => if a.score < b.score then b :: insertScoreDesc a bs else a :: b :: bs

/-- Stable descending-by-score sort. -/
def sortScoreDesc : List ScoreItem → List ScoreItem
  | [] => []
  | a :: as => insertScoreDesc a (sortScoreDesc as)

/-- `test.testName || key`. -/
def displayName (k : String) (t : TestResult) : String :=
  if t.testName = "" then k else t.testName

/-- The panel's below-average list: tests with a non-null standard score
strictly below `mean - sd`, sorted ascending by score. -/
def belowAverageItems (mean sd : ℚ) (tests : List (String × TestResult)) : List ScoreItem :=
  sortScoreAsc ((tests.filter (fun kv =>
    match kv.2.standardScore with
    | some q => decide (q < mean - sd)
    | none => false)).map (fun kv =>
      { test := displayName kv.1 kv.2,
        score := kv.2.standardScore.getD 0,
        interpretation := getScoreInterpretation kv.2.standardScore 100 15 }))

/-- The panel's above-average list: tests with a non-null standard score
strictly above `mean + sd`, sorted descending by score. -/
def aboveAverageItems (mean sd : ℚ) (tests : List (String × TestResult)) : List ScoreItem :=
  sortScoreDesc ((tests.filter (fun kv =>
    match kv.2.standardScore with
    | some q => decide (mean + sd < q)
    | none => false)).map (fun kv =>
      { test := displayName kv.1 kv.2,
        score := kv.2.standardScore.getD 0,
        interpretation := getScoreInterpretation kv.2.standardScore 100 15 }))

/-- The fixed receptive code set of `InsightsPanel.jsx`. -/
def receptiveTests : List String := ["RLI", "SC", "BC", "WC", "DPP", "PRS"]

/-- The fixed expressive code set of `InsightsPanel.jsx`. -/
def expressiveTests : List String := ["ELI", "WS", "EV", "FD", "RS"]

/-- Average of the non-null standard scores of the tests whose code is in
`codes`, `none` when no such score exists
(`reduce((a, b) => a + b, 0) / length`). -/
def avgScores (codes : List String) (tests : List (String × TestResult)) : Option ℚ :=
  let scores := ((tests.filter (fun kv => codes.contains kv.1)).map
    (fun kv => kv.2.standardScore)).reduceOption
  if 0 < scores.length then
    some (scores.foldl (fun a b => a + b) 0 / (scores.length : ℚ))
  else none

/-- One progress-over-time entry, before string formatting. -/
structure ProgressEntry where
  test : String
  change : ℚ
  firstScore : Option (Option ℚ)
  lastScore : Option (Option ℚ)
  firstDate : ℤ
  lastDate : ℤ
deriving DecidableEq, Repr

/-- `tests[k]?.standardScore`: `none` = `undefined` (test absent),
`some none` = `null`, `some (some q)` = a number. -/
def scoreAt (tests : List (String × TestResult)) (k : String) : Option (Option ℚ) :=
  (lookupTest tests k).map (fun t => t.standardScore)

/-- `tests[k]?.testName || k`. -/
def testNameAt (tests : List (String × TestResult)) (k : String) : String :=
  match lookupTest tests k with
  | some t => if t.testName = "" then k else t.testName
  | none => k

/-- JS subtraction on the values produced by `scoreAt`: an `undefined`
operand gives `NaN` (`none`); a `null` operand coerces to `0`. -/
def jsSub (a b : Option (Option ℚ)) : Option ℚ :=
  match a, b with
  | some x, some y => some (x.getD 0 - y.getD 0)
  | _, _ => none

/-- `new Set([...keysA, ...keysB])` iteration order: first-insertion
order, duplicates dropped. -/
def unionKeys (a b : List String) : List String :=
  (a ++ b).foldl (fun acc k => if acc.contains k then acc else acc ++ [k]) []

/-- The progress loop of `InsightsPanel.jsx`, over the mutated (now
descending-sorted) assessments array: runs only with at least two
assessments; earliest and latest come from an ascending re-sort of a
copy; a change entry is pushed when both scores pass the `!== null` guard
and `Math.abs(change) >= 5` (an `undefined` score passes the guard but
makes the change `NaN`, which fails the threshold). `progressStep` is the
loop body for one test code. -/
def progressStep (f l : Assessment) (acc : List ProgressEntry) (k : String) : List ProgressEntry :=
  let firstScore := scoreAt f.tests k
  let lastScore := scoreAt l.tests k
  if firstScore ≠ some none ∧ lastScore ≠ some none then
    match jsSub lastScore firstScore with
    | some change =>
      if 5 ≤ |change| then
        acc ++ [{ test := testNameAt f.tests k, change := change,
                  firstScore := firstScore, lastScore := lastScore,
                  firstDate := f.date, lastDate := l.date }]
      else acc
    | none => acc
  else acc

def progressEntries (assessments : List Assessment) : List ProgressEntry :=
  if 1 < assessments.length then
    match sortByDateAsc assessments with
    | [] => []
    | f :: rest =>
      let l := rest.getLastD f
      (unionKeys (f.tests.map (fun kv => kv.1)) (l.tests.map (fun kv => kv.1))).foldl
        (progressStep f l) []
  else []

/-- `toFixed(1)` rendering, as the rounded-to-tenths rational printed by
`toString`. -/
def fixed1 (q : ℚ) : String := toString (((round (q * 10) : ℤ) : ℚ) / 10)

/-- A template-literal interpolation of a `scoreAt` value: JS renders
`undefined` and `null` as those words. -/
def jsShowScore : Option (Option ℚ) → String
  | none => "undefined"
  | some none => "null"
  | some (some q) => toString q

/-- One below/above-average item string. -/
def scoreItemText (it : ScoreItem) : String :=
  it.test ++ ": " ++ toString it.score ++ " (" ++ it.interpretation ++ ")"

/-- One progress item string, direction `improved` for a positive change
and `declined` otherwise. -/
def progressItemText (e : ProgressEntry) : String :=
  e.test ++ ": " ++ (if 0 < e.change then "improved" else "declined") ++ " by " ++
    toString |e.change| ++ " points (" ++ jsShowScore e.firstScore ++ " → " ++
    jsShowScore e.lastScore ++ ")"

/-- One card of the insights panel. -/
structure PanelInsight where
  type : String
  title : String
  items : List String
deriving DecidableEq, Repr

/-- The `insights` derivation of `InsightsPanel.jsx`: from the latest
assessment (after the in-place descending sort, returned as the second
component), the below-average, above-average, receptive-vs-expressive and
progress cards, each emitted only when non-trivial. -/
def insightsPanelInsights (assessments : List Assessment) : List PanelInsight × List Assessment :=
  if assessments.isEmpty then ([], assessments)
  else
    match sortByDateDesc assessments with
    | [] => ([], [])
    | latest :: rest =>
      let p := getNormativeParams "standard"
      let tests := latest.tests
      let belowAverage := belowAverageItems p.1 p.2 tests
      let aboveAverage := aboveAverageItems p.1 p.2 tests
      let avgReceptive := avgScores receptiveTests tests
      let avgExpressive := avgScores expressiveTests tests
      let progress := progressEntries (latest :: rest)
      let cards :=
        (if 0 < belowAverage.length then
          [({ type := "below-average", title := "Areas Needing Support",
              items := belowAverage.map scoreItemText } : PanelInsight)]
         else []) ++
        (if 0 < aboveAverage.length then
          [({ type := "above-average", title := "Relative Strengths",
              items := aboveAverage.map scoreItemText } : PanelInsight)]
         else []) ++
        (match avgReceptive, avgExpressive with
         | some ar, some ae =>
           if 10 ≤ |ar - ae| then
             [({ type := "receptive-expressive",
                 title := "Receptive vs Expressive Comparison",
                 items := ["Average Receptive: " ++ fixed1 ar,
                           "Average Expressive: " ++ fixed1 ae,
                           (if ae < ar then "Receptive" else "Expressive") ++
                             " language skills are " ++ fixed1 |ar - ae| ++
                             " points higher"] } : PanelInsight)]
           else []
         | _, _ => []) ++
        (if 0 < progress.length then
          [({ type := "progress", title := "Progress Over Time",
              items := progress.map progressItemText } : PanelInsight)]
         else [])
      (cards, latest :: rest)

/-- A test result with only a standard score, as the sample inputs use. -/
def sampleTestResult (name : String) (q : ℚ) : TestResult :=
  { standardScore := some q, scaledScore := none, percentile := none,
    rawScore := none, testName := name }

/-- A sample clinician rule for the Core Language Score with range
`z ≤ -1`. -/
def sampleRule : InterpEntry :=
  { test_type := "Core Language Score", test_abbreviation := "CLS",
    audience := "clinician",
    score_range := some { min_z := none, max_z := some (-1),
                          min_z_diff := none, max_z_diff := none },
    title := "Below average core language",
    summary := "Core language is below average.",
    details := none, source := "CELF-P3 manual",
    recommendations := some ["Targeted language support"] }

/-- The claim's per-test-code progress condition, stated from the spec's
words: a change entry for code `k` exactly when both the earliest and the
latest assessment have a non-null standard score for `k` and the absolute
change between latest and earliest is at least 5. -/
def progressProbe (f l : Assessment) (k : String) : Option ProgressEntry :=
  match scoreAt f.tests k, scoreAt l.tests k with
  | some (some fq), some (some lq) =>
    if 5 ≤ |lq - fq| then
      some { test := testNameAt f.tests k, change := lq - fq,
             firstScore := some (some fq), lastScore := some (some lq),
             firstDate := f.date, lastDate := l.date }
    else none
  | _, _ => none

/-- A one-assessment history whose receptive average is 110 and
expressive average 95. -/
def panelComparisonHi : Assessment :=
  ⟨0, [("RLI", sampleTestResult "Receptive Language Index" 110),
       ("ELI", sampleTestResult "Expressive Language Index" 95)]⟩

/-- A one-assessment history whose receptive average is 105 and
expressive average 98. -/
def panelComparisonLo : Assessment :=
  ⟨0, [("RLI", sampleTestResult "Receptive Language Index" 105),
       ("ELI", sampleTestResult "Expressive Language Index" 98)]⟩

/-- An early (date 0) assessment with one Expressive Vocabulary score. -/
def panelEarly (q : ℚ) : Assessment :=
  ⟨0, [("EV", sampleTestResult "Expressive Vocabulary" q)]⟩

/-- A late (date 10) assessment with one Expressive Vocabulary score. -/
def panelLate (q : ℚ) : Assessment :=
  ⟨10, [("EV", sampleTestResult "Expressive Vocabulary" q)]⟩

/-- Replace an exact-zero standard score by `null`, leaving every other
test result untouched; used to state that the matching pipeline treats a
stored standard score of 0 exactly like a missing one. -/
def withNullZero (t : TestResult) : TestResult :=
  if t.standardScore = some 0 then
    { t with standardScore := none }
  else t

/-- `withNullZero` applied to every test of an assessment. -/
def nullifyZeroTests (a : Assessment) : Assessment :=
  { a with tests := a.tests.map (fun kv => (kv.1, withNullZero kv.2)) }

/-- A mixed tests object: RLI stores the score 0 while ELI and CLS store
nonzero scores. -/
def mixedZeroTests : List (String × TestResult) :=
  [("RLI", sampleTestResult "Receptive Language Index" 0),
   ("ELI", sampleTestResult "Expressive Language Index" 110),
   ("CLS", sampleTestResult "Core Language Score" 70)]

/-- A sample clinician rule whose abbreviation is RLI, with an
unconstrained score range. -/
def rliRule : InterpEntry :=
  { test_type := "Receptive Language Index", test_abbreviation := "RLI",
    audience := "clinician",
    score_range := some { min_z := none, max_z := none,
                          min_z_diff := none, max_z_diff := none },
    title := "Receptive language note",
    summary := "Receptive language summary.",
    details := none, source := "CELF-P3 manual",
    recommendations := none }

theorem getNormativeBand_some (z : ℚ) :
    getNormativeBand (some z) =
      (if z ≤ -2 then "Significantly Below Average"
       else if z ≤ -1 then "Below Average"
       else if z ≤ 1 then "Average"
       else if z ≤ 2 then "Above Average"
       else "Significantly Above Average") := rfl

theorem bandRank_mono_of_le (z1 z2 : ℚ) (h : z1 ≤ z2) :
    bandRank (getNormativeBand (some z1)) ≤ bandRank (getNormativeBand (some z2)) := by
  rw [getNormativeBand_some, getNormativeBand_some]
  split_ifs <;> first | decide | linarith

theorem getNormativeBand_mem_bandLabels (z : ℚ) :
    getNormativeBand (some z) ∈ bandLabels := by
  rw [getNormativeBand_some]
  split_ifs <;> decide

/-- Claim C2: for every numeric z the band classification is the five-way
closed-below/open-above bucketing (`z ≤ -2` significantly below, `-2 < z ≤
-1` below, `-1 < z ≤ 1` average, `1 < z ≤ 2` above, `2 < z` significantly
above, and no other label occurs), and a standard score of exactly 85
(z = -1 under mean 100, SD 15) is classified `Below Average`. -/
theorem getNormativeBand_five_band_characterization (z : ℚ) :
    (getNormativeBand (some z) = "Significantly Below Average" ↔ z ≤ -2) ∧
    (getNormativeBand (some z) = "Below Average" ↔ (-2 < z ∧ z ≤ -1)) ∧
    (getNormativeBand (some z) = "Average" ↔ (-1 < z ∧ z ≤ 1)) ∧
    (getNormativeBand (some z) = "Above Average" ↔ (1 < z ∧ z ≤ 2)) ∧
    (getNormativeBand (some z) = "Significantly Above Average" ↔ 2 < z) ∧
    getNormativeBand (some z) ∈ bandLabels ∧
    getNormativeBand (calculateZScore (some 85) "standard") = "Below Average" := by
  refine ⟨?_, ?_, ?_, ?_, ?_, getNormativeBand_mem_bandLabels z, ?_⟩
  · rw [getNormativeBand_some]; split_ifs with h1 h2 h3 h4 <;> simp_all
  · rw [getNormativeBand_some]
    split_ifs with h1 h2 h3 h4 <;> simp_all <;> first | linarith | (intro hx; linarith)
  · rw [getNormativeBand_some]
    split_ifs with h1 h2 h3 h4 <;> simp_all <;> first | linarith | (intro hx; linarith)
  · rw [getNormativeBand_some]
    split_ifs with h1 h2 h3 h4 <;> simp_all <;> first | linarith | (intro hx; linarith)
  · rw [getNormativeBand_some]
    split_ifs with h1 h2 h3 h4 <;> simp_all <;> first | linarith | (intro hx; linarith)
  · show getNormativeBand (some ((85 - (100 : ℚ)) / 15)) = "Below Average"
    norm_num [getNormativeBand_some]

/-- Claim C9: for scores of one instrument type the composed map
`band ∘ zScore` is monotone in the score (with respect to the ordinal
order of the five labels), and it always lands in one of the five labels. -/
theorem band_of_zscore_monotone (ty : String) (s1 s2 : ℚ) (h : s1 ≤ s2) :
    bandRank (getNormativeBand (calculateZScore (some s1) ty)) ≤
      bandRank (getNormativeBand (calculateZScore (some s2) ty)) ∧
    getNormativeBand (calculateZScore (some s1) ty) ∈ bandLabels := by
  have hz : ∀ s : ℚ, calculateZScore (some s) ty =
      some ((s - (NORMATIVE_PARAMS ty).1) / (NORMATIVE_PARAMS ty).2) := by
    intro s; rfl
  have hsd : 0 < (NORMATIVE_PARAMS ty).2 := by
    unfold NORMATIVE_PARAMS
    split_ifs <;> norm_num
  have hmono : (s1 - (NORMATIVE_PARAMS ty).1) / (NORMATIVE_PARAMS ty).2 ≤
      (s2 - (NORMATIVE_PARAMS ty).1) / (NORMATIVE_PARAMS ty).2 := by
    gcongr
  constructor
  · rw [hz s1, hz s2]
    exact bandRank_mono_of_le _ _ hmono
  · rw [hz s1]
    exact getNormativeBand_mem_bandLabels _

/-- Witness for `band_of_zscore_monotone` at `ty = "standard"`,
`s1 = 85 ≤ s2 = 100`. -/
theorem band_of_zscore_monotone_witness :
    (85 : ℚ) ≤ 100 ∧
    (bandRank (getNormativeBand (calculateZScore (some 85) "standard")) ≤
       bandRank (getNormativeBand (calculateZScore (some 100) "standard")) ∧
     getNormativeBand (calculateZScore (some 85) "standard") ∈ bandLabels) :=
  ⟨by norm_num, band_of_zscore_monotone "standard" 85 100 (by norm_num)⟩

/-- Claim C4: numeric field parsing maps each of the three string
sentinels — the empty string, `#N/A` and `-1` — to the absent value, never
to the number `-1` and never to `NaN`; any other string in which
`parseFloat` finds no number also yields absent rather than `NaN`. -/
theorem parseNumber_sentinels_absent :
    parseNumber (some "") = none ∧
    parseNumber (some "#N/A") = none ∧
    parseNumber (some "-1") = none ∧
    (∀ s : String, jsParseFloat s = none → parseNumber (some s) = none) := by
  refine ⟨by decide, by decide, by decide, ?_⟩
  intro s hs
  have hred : parseNumber (some s) =
      if s = "" ∨ s = "#N/A" ∨ s = "-1" then none else jsParseFloat s := rfl
  rw [hred]
  split_ifs with h
  · rfl
  · exact hs

/-- Witness for `parseNumber_sentinels_absent`: the non-numeric string
`abc` parses to absent. -/
theorem parseNumber_sentinels_absent_witness :
    jsParseFloat "abc" = none ∧ parseNumber (some "abc") = none :=
  ⟨by decide, parseNumber_sentinels_absent.2.2.2 "abc" (by decide)⟩

/-- Claim C8 counterexample: the string `x1/2/1999` is in neither of the
two literal formats `M/D/YYYY` and `YYYY-M-D` (as a whole string), yet
`parseDate` accepts it, because the two regexes are unanchored substring
searches; this contradicts the claim that every date string in neither
format is treated as unparseable. -/
theorem parseDate_accepts_embedded_date :
    parseDate (some "x1/2/1999") = some ⟨1999, 1, 2⟩ := by decide

/-- Claim C8 (amended): date parsing searches the string for a substring
matching `M/D/YYYY`, then for one matching `YYYY-M-D`, tried in that
order; a string containing neither pattern anywhere is treated as
unparseable; whether a row is kept never depends on its date field; and a
kept row with an unparseable date gets the load time as its date — it is
never null and never aborts the row. -/
theorem parseDate_formats_order_and_default :
    parseDate (some "3/4/2021") = some ⟨2021, 3, 4⟩ ∧
    parseDate (some "2021-3-4") = some ⟨2021, 3, 4⟩ ∧
    parseDate (some "2021-3-4 then 5/6/2022") = some ⟨2022, 5, 6⟩ ∧
    (∀ s : String, findMatch matchMDYat s.toList = none →
      findMatch matchYMDat s.toList = none → parseDate (some s) = none) ∧
    (∀ (lt : YMD) (row : CSVRow),
      (processRow lt row).isSome ↔
        ∃ idRaw, row.fields "LT_Id" = some idRaw ∧
          ¬(idRaw = "" ∨ jsTrim idRaw = "" ∨ idRaw = "#N/A") ∧
          extractAllTests row ≠ []) ∧
    (∀ (lt : YMD) (row : CSVRow) (rec : ProcessedRecord),
      parseDate (row.fields "AssessmentDate") = none →
      processRow lt row = some rec → rec.date = lt) := by
  refine ⟨by decide, by decide, by decide, ?_, ?_, ?_⟩
  · intro s h1 h2
    have hred : parseDate (some s) =
        (if jsTrim s = "" then none
         else
           match findMatch matchMDYat s.toList with
           | some (m, d, y) => some ⟨y, m, d⟩
           | none =>
             match findMatch matchYMDat s.toList with
             | some (y, m, d) => some ⟨y, m, d⟩
             | none => none) := rfl
    rw [hred, h1, h2]
    split_ifs <;> rfl
  · intro lt row
    unfold processRow
    cases hid : row.fields "LT_Id" with
    | none => simp
    | some idRaw =>
      simp only
      split_ifs with h1 h2
      · simp only [Option.isSome_none, Bool.false_eq_true, false_iff]
        rintro ⟨idRaw2, heq, hno, _⟩
        obtain rfl := Option.some.inj heq
        exact hno h1
      · simp only [Option.isSome_none, Bool.false_eq_true, false_iff]
        rintro ⟨idRaw2, heq, _, hne⟩
        exact hne (List.isEmpty_iff.mp h2)
      · simp only [Option.isSome_some, true_iff]
        exact ⟨idRaw, rfl, h1, fun hnil => h2 (by rw [hnil]; rfl)⟩
  · intro lt row rec hdate hrec
    unfold processRow at hrec
    cases hid : row.fields "LT_Id" with
    | none => rw [hid] at hrec; cases hrec
    | some idRaw =>
      rw [hid] at hrec
      simp only at hrec
      split_ifs at hrec with h1 h2
      all_goals
        first
          | (obtain rfl := Option.some.inj hrec; rw [hdate]; rfl)
          | cases hrec

/-- Witness for `parseDate_formats_order_and_default`: a row whose date
string `sometime soon` matches neither pattern is still kept and its date
is the load time. -/
theorem parseDate_formats_order_and_default_witness :
    parseDate (unparseableDateRow.fields "AssessmentDate") = none ∧
    processRow ⟨2026, 1, 1⟩ unparseableDateRow = some unparseableDateRecord ∧
    unparseableDateRecord.date = ⟨2026, 1, 1⟩ := by
  refine ⟨by decide, by decide, ?_⟩
  exact parseDate_formats_order_and_default.2.2.2.2.2 ⟨2026, 1, 1⟩ unparseableDateRow
    unparseableDateRecord (by decide) (by decide)

/-- Claim C5: for every student and audience (and any retrieved-entry
list), an empty assessments sequence yields, without throwing, a report
with empty `testInsights`, empty `comparisons` and `totalRetrieved = 0`. -/
theorem assembleCompleteReport_empty_assessments (student : Option StudentRef)
    (entries : List InterpEntry) (audience : String) :
    (assembleCompleteReport student [] entries audience).1.testInsights = [] ∧
    (assembleCompleteReport student [] entries audience).1.comparisons = [] ∧
    (assembleCompleteReport student [] entries audience).1.totalRetrieved = 0 := by
  refine ⟨?_, ?_, ?_⟩ <;> rfl

theorem insertDesc_perm (a : Assessment) (l : List Assessment) :
    (insertDesc a l).Perm (a :: l) := by
  induction l with
  | nil => exact List.Perm.refl _
  | cons b bs ih =>
    unfold insertDesc
    split_ifs with h
    · exact (ih.cons b).trans (List.Perm.swap a b bs)
    · exact List.Perm.refl _

theorem sortByDateDesc_perm (l : List Assessment) : (sortByDateDesc l).Perm l := by
  induction l with
  | nil => exact List.Perm.refl _
  | cons a as ih =>
    unfold sortByDateDesc
    exact (insertDesc_perm a (sortByDateDesc as)).trans (ih.cons a)

/-- Claim C3 counterexample: `retrieveAllInterpretations` sorts the
caller's assessments array in place (descending by date), so after the
call the array does not hold the records in their original order. -/
theorem retrieveAllInterpretations_reorders_input :
    (retrieveAllInterpretations [] [⟨1, []⟩, ⟨2, []⟩] "clinician").2 ≠
      [⟨1, []⟩, ⟨2, []⟩] := by decide

/-- Claim C3 (amended): each derivation leaves the multiset of assessment
records intact — after `retrieveAllInterpretations`,
`assembleCompleteReport` or the insights-panel derivation, the caller's
assessments array holds a permutation (the stable descending-date
reordering, or the original order when a function returns early) of the
records it held before the call, though not necessarily in the original
order. -/
theorem derivations_permute_assessments (kb entries : List InterpEntry)
    (assessments : List Assessment) (student : Option StudentRef) (audience : String) :
    ((retrieveAllInterpretations kb assessments audience).2).Perm assessments ∧
    ((assembleCompleteReport student assessments entries audience).2).Perm assessments ∧
    ((insightsPanelInsights assessments).2).Perm assessments := by
  have hp := sortByDateDesc_perm assessments
  refine ⟨?_, ?_, ?_⟩
  · unfold retrieveAllInterpretations
    split_ifs with h
    · exact List.Perm.refl _
    · split
      next heq => rw [heq] at hp; exact hp
      next latest rest heq => rw [heq] at hp; exact hp
  · unfold assembleCompleteReport
    split_ifs with h
    · exact List.Perm.refl _
    · split
      next heq => rw [heq] at hp; exact hp
      next latest rest heq => rw [heq] at hp; exact hp
  · unfold insightsPanelInsights
    split_ifs with h
    · exact List.Perm.refl _
    · split
      next heq => rw [heq] at hp; exact hp
      next latest rest heq => rw [heq] at hp; exact hp

/-- Claim C1 counterexample: with a standard score of exactly `0` — a
non-null finite value — the engine returns `[]` even when a table rule
matches the query under the spec predicate (z of 0 is `-20/3 ≤ -1`), so
the engine does not return exactly the spec-matching rules for every
non-null finite score. -/
theorem retrieveTestInterpretations_zero_score_diverges :
    retrieveTestInterpretations [sampleRule] "Core Language Score" "CLS" (some 0) "clinician" = [] ∧
    List.filter (specSingleMatch "Core Language Score" "CLS" "clinician" ((0 - 100) / 15))
      [sampleRule] = [sampleRule] := by
  constructor
  · rfl
  · decide

/-- Claim C1 (amended): for every single-score query whose standard score
is non-null, finite and nonzero (the code's falsy-guard also drops `0`),
and every table whose rules all carry a `score_range` (as the data model
prescribes), `retrieveTestInterpretations` returns exactly the rules
satisfying the spec predicate — name-or-abbreviation match, audience
match, not `Composite Comparison`, and the z-score `(s - 100) / 15`
within the range's inclusive bounds (an absent bound unconstrained) — in
the table's insertion order with no ranking or truncation. -/
theorem retrieveTestInterpretations_eq_spec_filter (kb : List InterpEntry)
    (testName testAbbreviation : String) (s : ℚ) (audience : String)
    (hs : s ≠ 0) (hkb : ∀ e ∈ kb, e.score_range ≠ none) :
    retrieveTestInterpretations kb testName testAbbreviation (some s) audience =
      kb.filter (specSingleMatch testName testAbbreviation audience ((s - 100) / 15)) := by
  have hred : retrieveTestInterpretations kb testName testAbbreviation (some s) audience =
      if s = 0 then [] else
        kb.filter (singleQueryFilter testName testAbbreviation
          (calculateZScore (some s) "standard") audience) := rfl
  rw [hred, if_neg hs]
  apply List.filter_congr
  intro e he
  obtain ⟨r, hr⟩ : ∃ r, e.score_range = some r := by
    cases hsr : e.score_range with
    | none => exact absurd hsr (hkb e he)
    | some r => exact ⟨r, rfl⟩
  have hzv : calculateZScore (some s) "standard" = some ((s - 100) / 15) := by
    unfold calculateZScore NORMATIVE_PARAMS
    split_ifs with hty
    · exact absurd hty (by decide)
    · rfl
  unfold singleQueryFilter specSingleMatch matchesScoreRange
  rw [hr, hzv]
  by_cases hc : e.test_type = "Composite Comparison" <;>
    by_cases h1 : e.test_type = testName <;>
      by_cases h2 : e.test_abbreviation = testAbbreviation <;>
        by_cases ha : e.audience = audience <;>
          simp [hc, h1, h2, ha]

/-- Witness for `retrieveTestInterpretations_eq_spec_filter` on a
one-rule table at score 70. -/
theorem retrieveTestInterpretations_eq_spec_filter_witness :
    (70 : ℚ) ≠ 0 ∧
    sampleRule.score_range ≠ none ∧
    retrieveTestInterpretations [sampleRule] "Core Language Score" "CLS" (some 70) "clinician" =
      List.filter (specSingleMatch "Core Language Score" "CLS" "clinician" ((70 - 100) / 15))
        [sampleRule] :=
  ⟨by norm_num, by decide,
   retrieveTestInterpretations_eq_spec_filter [sampleRule] "Core Language Score" "CLS" 70
     "clinician" (by norm_num) (by decide)⟩

theorem insightsPanelInsights_eq (assessments : List Assessment)
    (latest : Assessment) (rest : List Assessment)
    (h : sortByDateDesc assessments = latest :: rest) :
    insightsPanelInsights assessments =
      ((if 0 < (belowAverageItems (getNormativeParams "standard").1
            (getNormativeParams "standard").2 latest.tests).length then
          [({ type := "below-average", title := "Areas Needing Support",
              items := (belowAverageItems (getNormativeParams "standard").1
                (getNormativeParams "standard").2 latest.tests).map scoreItemText } : PanelInsight)]
        else []) ++
       (if 0 < (aboveAverageItems (getNormativeParams "standard").1
            (getNormativeParams "standard").2 latest.tests).length then
          [({ type := "above-average", title := "Relative Strengths",
              items := (aboveAverageItems (getNormativeParams "standard").1
                (getNormativeParams "standard").2 latest.tests).map scoreItemText } : PanelInsight)]
        else []) ++
       (match avgScores receptiveTests latest.tests, avgScores expressiveTests latest.tests with
        | some ar, some ae =>
          if 10 ≤ |ar - ae| then
            [({ type := "receptive-expressive",
                title := "Receptive vs Expressive Comparison",
                items := ["Average Receptive: " ++ fixed1 ar,
                          "Average Expressive: " ++ fixed1 ae,
                          (if ae < ar then "Receptive" else "Expressive") ++
                            " language skills are " ++ fixed1 |ar - ae| ++
                            " points higher"] } : PanelInsight)]
          else []
        | _, _ => []) ++
       (if 0 < (progressEntries (latest :: rest)).length then
          [({ type := "progress", title := "Progress Over Time",
              items := (progressEntries (latest :: rest)).map progressItemText } : PanelInsight)]
        else []), latest :: rest) := by
  have hne : ¬assessments.isEmpty = true := by
    cases assessments with
    | nil => exact absurd h (by simp [sortByDateDesc])
    | cons a as => simp
  unfold insightsPanelInsights
  rw [if_neg hne, h]

/-- Claim C6: the receptive-vs-expressive heuristic averages the non-null
standard scores of the fixed receptive set `{RLI, SC, BC, WC, DPP, PRS}`
and the fixed expressive set `{ELI, WS, EV, FD, RS}` over the most recent
assessment and emits a comparison card iff both averages are computable
and their absolute difference is at least 10; averages 110 vs 95 emit it
and 105 vs 98 do not. -/
theorem insightsPanel_receptive_expressive_iff (assessments : List Assessment)
    (latest : Assessment) (rest : List Assessment)
    (h : sortByDateDesc assessments = latest :: rest) :
    ((∃ c ∈ (insightsPanelInsights assessments).1, c.type = "receptive-expressive") ↔
      (∃ ar ae, avgScores receptiveTests latest.tests = some ar ∧
        avgScores expressiveTests latest.tests = some ae ∧ 10 ≤ |ar - ae|)) ∧
    (∃ c ∈ (insightsPanelInsights [panelComparisonHi]).1, c.type = "receptive-expressive") ∧
    (¬∃ c ∈ (insightsPanelInsights [panelComparisonLo]).1, c.type = "receptive-expressive") := by
  refine ⟨?_, by decide, by decide⟩
  rw [insightsPanelInsights_eq assessments latest rest h]
  rcases h1 : avgScores receptiveTests latest.tests with _ | ar <;>
    rcases h2 : avgScores expressiveTests latest.tests with _ | ae <;>
      split_ifs <;> simp_all <;> aesop

/-- Witness for `insightsPanel_receptive_expressive_iff` on the
one-assessment history with RLI 110 and ELI 95. -/
theorem insightsPanel_receptive_expressive_iff_witness :
    sortByDateDesc [panelComparisonHi] = [panelComparisonHi] ∧
    ((∃ c ∈ (insightsPanelInsights [panelComparisonHi]).1, c.type = "receptive-expressive") ↔
      (∃ ar ae, avgScores receptiveTests panelComparisonHi.tests = some ar ∧
        avgScores expressiveTests panelComparisonHi.tests = some ae ∧ 10 ≤ |ar - ae|)) :=
  ⟨rfl, (insightsPanel_receptive_expressive_iff [panelComparisonHi] panelComparisonHi [] rfl).1⟩

theorem progressStep_eq_probe (f l : Assessment) (acc : List ProgressEntry) (k : String) :
    progressStep f l acc k =
      (match progressProbe f l k with
       | some e => acc ++ [e]
       | none => acc) := by
  unfold progressStep progressProbe
  rcases hf : scoreAt f.tests k with _ | fv
  · rcases hl : scoreAt l.tests k with _ | lv <;> simp [jsSub, hf, hl]
  · rcases hl : scoreAt l.tests k with _ | lv
    · cases fv <;> simp [jsSub, hf, hl]
    · cases fv <;> cases lv <;> simp [jsSub, hf, hl] <;> split_ifs <;> simp_all

theorem foldl_progressStep_filterMap (f l : Assessment) :
    ∀ (keys : List String) (acc : List ProgressEntry),
      keys.foldl (progressStep f l) acc = acc ++ keys.filterMap (progressProbe f l) := by
  intro keys
  induction keys with
  | nil => intro acc; simp
  | cons k ks ih =>
    intro acc
    simp only [List.foldl_cons, List.filterMap_cons, progressStep_eq_probe]
    cases hp : progressProbe f l k with
    | none => exact ih acc
    | some e =>
      rw [ih (acc ++ [e])]
      simp

theorem progressProbe_inversion (f l : Assessment) (k : String) (e : ProgressEntry)
    (h : progressProbe f l k = some e) : 5 ≤ |e.change| := by
  unfold progressProbe at h
  revert h
  rcases scoreAt f.tests k with _ | (_ | fq) <;>
    rcases scoreAt l.tests k with _ | (_ | lq) <;>
      intro h <;>
        try cases h
  change (if 5 ≤ |lq - fq| then
      some { test := testNameAt f.tests k, change := lq - fq,
             firstScore := some (some fq), lastScore := some (some lq),
             firstDate := f.date, lastDate := l.date }
    else (none : Option ProgressEntry)) = some e at h
  split_ifs at h with hd
  cases h
  exact hd

theorem progress_improved_text (e : ProgressEntry) (h : 0 < e.change) :
    progressItemText e = e.test ++ ": improved by " ++ toString |e.change| ++ " points (" ++
      jsShowScore e.firstScore ++ " → " ++ jsShowScore e.lastScore ++ ")" := by
  unfold progressItemText
  rw [if_pos h, String.append_assoc e.test ": " "improved",
    String.append_assoc e.test (": " ++ "improved") " by ",
    show (": " ++ "improved" ++ " by " : String) = ": improved by " from rfl]

theorem progress_declined_text (e : ProgressEntry) (h : ¬0 < e.change) :
    progressItemText e = e.test ++ ": declined by " ++ toString |e.change| ++ " points (" ++
      jsShowScore e.firstScore ++ " → " ++ jsShowScore e.lastScore ++ ")" := by
  unfold progressItemText
  rw [if_neg h, String.append_assoc e.test ": " "declined",
    String.append_assoc e.test (": " ++ "declined") " by ",
    show (": " ++ "declined" ++ " by " : String) = ": declined by " from rfl]

/-- Claim C7: the progress heuristic runs only with at least two
assessments; over the earliest and latest assessments it emits, per test
code present in either, a change entry exactly when both have a non-null
standard score and the absolute change is at least 5; every emitted entry
has `|change| ≥ 5` and renders as `improved` for a positive change and
`declined` otherwise; a 80→90 history yields one progress item and a
80→83 history yields no progress card. -/
theorem insightsPanel_progress_characterization :
    (∀ assessments : List Assessment, assessments.length ≤ 1 →
      ∀ c ∈ (insightsPanelInsights assessments).1, c.type ≠ "progress") ∧
    (∀ (sortedDesc : List Assessment) (f : Assessment) (rest : List Assessment),
      1 < sortedDesc.length → sortByDateAsc sortedDesc = f :: rest →
      progressEntries sortedDesc =
        (unionKeys (f.tests.map (fun kv => kv.1))
          ((rest.getLastD f).tests.map (fun kv => kv.1))).filterMap
            (progressProbe f (rest.getLastD f))) ∧
    (∀ sortedDesc : List Assessment, ∀ e ∈ progressEntries sortedDesc,
      5 ≤ |e.change| ∧
      (0 < e.change → progressItemText e =
        e.test ++ ": improved by " ++ toString |e.change| ++ " points (" ++
          jsShowScore e.firstScore ++ " → " ++ jsShowScore e.lastScore ++ ")") ∧
      (e.change ≤ 0 → progressItemText e =
        e.test ++ ": declined by " ++ toString |e.change| ++ " points (" ++
          jsShowScore e.firstScore ++ " → " ++ jsShowScore e.lastScore ++ ")")) ∧
    (∃ c ∈ (insightsPanelInsights [panelLate 90, panelEarly 80]).1,
      c.type = "progress" ∧ c.items = ["Expressive Vocabulary: improved by 10 points (80 → 90)"]) ∧
    (∀ c ∈ (insightsPanelInsights [panelLate 83, panelEarly 80]).1, c.type ≠ "progress") := by
  refine ⟨?_, ?_, ?_, by decide, by decide⟩
  · intro assessments hlen c hc hty
    cases assessments with
    | nil => simp [insightsPanelInsights] at hc
    | cons a as =>
      cases as with
      | cons b bs => simp at hlen
      | nil =>
        rw [insightsPanelInsights_eq [a] a [] rfl] at hc
        have hpe : progressEntries [a] = [] := rfl
        rw [hpe] at hc
        revert hc
        rcases avgScores receptiveTests a.tests with _ | ar <;>
          rcases avgScores expressiveTests a.tests with _ | ae <;>
            intro hc <;> split_ifs at hc <;> simp_all <;> aesop
  · intro sortedDesc f rest hlen hsort
    unfold progressEntries
    rw [if_pos hlen, hsort]
    dsimp only
    rw [foldl_progressStep_filterMap]
    simp
  · intro sortedDesc e he
    have habs : 5 ≤ |e.change| := by
      unfold progressEntries at he
      split_ifs at he with hlen
      · revert he
        cases hsa : sortByDateAsc sortedDesc with
        | nil => intro he; cases he
        | cons f rest =>
          intro he
          dsimp only at he
          rw [foldl_progressStep_filterMap] at he
          simp only [List.nil_append] at he
          obtain ⟨k, _, hpk⟩ := List.mem_filterMap.mp he
          exact progressProbe_inversion _ _ _ _ hpk
      · cases he
    refine ⟨habs, fun hpos => progress_improved_text e hpos, fun hle => ?_⟩
    exact progress_declined_text e (not_lt.mpr hle)

/-- Witness for `insightsPanel_progress_characterization`: its per-code
characterization applied to the 80→90 history, and one of its emitted
entries. -/
theorem insightsPanel_progress_characterization_witness :
    1 < ([panelEarly 80, panelLate 90] : List Assessment).length ∧
    sortByDateAsc [panelEarly 80, panelLate 90] = [panelEarly 80, panelLate 90] ∧
    progressEntries [panelEarly 80, panelLate 90] =
      (unionKeys ((panelEarly 80).tests.map (fun kv => kv.1))
        (([panelLate 90].getLastD (panelEarly 80)).tests.map (fun kv => kv.1))).filterMap
          (progressProbe (panelEarly 80) ([panelLate 90].getLastD (panelEarly 80))) :=
  ⟨by decide, by decide,
   insightsPanel_progress_characterization.2.1 [panelEarly 80, panelLate 90]
     (panelEarly 80) [panelLate 90] (by decide) (by decide)⟩

theorem perTestStep_zero_skip (kb : List InterpEntry) (aud : String)
    (acc : List InterpEntry) (kv : String × TestResult)
    (h0 : kv.2.standardScore = some 0) : perTestStep kb aud acc kv = acc := by
  unfold perTestStep
  rw [h0]
  simp

theorem compositeMatches_zero_rli (kb : List InterpEntry) (aud : String)
    (latest : Assessment) (rli : TestResult)
    (hr : lookupTest latest.tests "RLI" = some rli)
    (h0 : rli.standardScore = some 0) : compositeMatches kb aud latest = [] := by
  unfold compositeMatches
  rw [hr]
  rcases he : lookupTest latest.tests "ELI" with _ | eli
  · rfl
  · rcases hes : eli.standardScore with _ | es <;> simp [h0, hes]

theorem compositeMatches_zero_eli (kb : List InterpEntry) (aud : String)
    (latest : Assessment) (eli : TestResult)
    (he : lookupTest latest.tests "ELI" = some eli)
    (h0 : eli.standardScore = some 0) : compositeMatches kb aud latest = [] := by
  unfold compositeMatches
  rw [he]
  rcases hr : lookupTest latest.tests "RLI" with _ | rli
  · rfl
  · rcases hrs : rli.standardScore with _ | rs <;> simp [h0, hrs]

theorem assembleGroupStep_zero_skip (latest : Assessment)
    (gacc : List TestInsight × List InterpEntry) (entry : InterpEntry) (td : TestResult)
    (hnc : entry.test_type ≠ "Composite Comparison")
    (hl : lookupTest latest.tests entry.test_abbreviation = some td)
    (h0 : td.standardScore = some 0) : assembleGroupStep latest gacc entry = gacc := by
  unfold assembleGroupStep
  rw [if_neg hnc, hl]
  simp [h0]

theorem assembleComparisonsBlock_zero_rli (latest : Assessment) (ce : List InterpEntry)
    (rli : TestResult) (hr : lookupTest latest.tests "RLI" = some rli)
    (h0 : rli.standardScore = some 0) : assembleComparisonsBlock latest ce = [] := by
  unfold assembleComparisonsBlock
  split_ifs with hce
  · rfl
  · rw [hr]
    rcases he : lookupTest latest.tests "ELI" with _ | eli
    · rfl
    · rcases hes : eli.standardScore with _ | es <;> simp [h0, hes]

theorem assembleComparisonsBlock_zero_eli (latest : Assessment) (ce : List InterpEntry)
    (eli : TestResult) (he : lookupTest latest.tests "ELI" = some eli)
    (h0 : eli.standardScore = some 0) : assembleComparisonsBlock latest ce = [] := by
  unfold assembleComparisonsBlock
  split_ifs with hce
  · rfl
  · rw [he]
    rcases hr : lookupTest latest.tests "RLI" with _ | rli
    · rfl
    · rcases hrs : rli.standardScore with _ | rs <;> simp [h0, hrs]

theorem nullifyZeroTests_date (a : Assessment) : (nullifyZeroTests a).date = a.date := rfl

theorem nullifyZeroTests_tests (a : Assessment) :
    (nullifyZeroTests a).tests = a.tests.map (fun kv => (kv.1, withNullZero kv.2)) := rfl

theorem withNullZero_standardScore (t : TestResult) :
    (withNullZero t).standardScore =
      if t.standardScore = some 0 then none else t.standardScore := by
  unfold withNullZero
  split_ifs <;> rfl

theorem insertDesc_map_nullify (a : Assessment) (l : List Assessment) :
    insertDesc (nullifyZeroTests a) (l.map nullifyZeroTests) =
      (insertDesc a l).map nullifyZeroTests := by
  induction l with
  | nil => rfl
  | cons b bs ih =>
    simp only [List.map_cons]
    show (if (nullifyZeroTests a).date < (nullifyZeroTests b).date then
        nullifyZeroTests b :: insertDesc (nullifyZeroTests a) (bs.map nullifyZeroTests)
      else nullifyZeroTests a :: nullifyZeroTests b :: bs.map nullifyZeroTests) =
      (if a.date < b.date then b :: insertDesc a bs else a :: b :: bs).map nullifyZeroTests
    simp only [nullifyZeroTests_date]
    split_ifs with h
    · simp [ih]
    · simp

theorem sortByDateDesc_map_nullify (l : List Assessment) :
    sortByDateDesc (l.map nullifyZeroTests) = (sortByDateDesc l).map nullifyZeroTests := by
  induction l with
  | nil => rfl
  | cons a as ih =>
    show insertDesc (nullifyZeroTests a) (sortByDateDesc (as.map nullifyZeroTests)) =
      (insertDesc a (sortByDateDesc as)).map nullifyZeroTests
    rw [ih]
    exact insertDesc_map_nullify a (sortByDateDesc as)

theorem perTestStep_withNullZero (kb : List InterpEntry) (aud : String)
    (acc : List InterpEntry) (kv : String × TestResult) :
    perTestStep kb aud acc (kv.1, withNullZero kv.2) = perTestStep kb aud acc kv := by
  by_cases h0 : kv.2.standardScore = some 0
  · have hw : withNullZero kv.2 = { kv.2 with standardScore := none } := by
      unfold withNullZero
      rw [if_pos h0]
    rw [hw]
    unfold perTestStep
    rw [h0]
    simp
  · have hw : withNullZero kv.2 = kv.2 := by
      unfold withNullZero
      rw [if_neg h0]
    rw [hw]

theorem foldl_perTestStep_map (kb : List InterpEntry) (aud : String)
    (ts : List (String × TestResult)) :
    ∀ acc, (ts.map (fun kv => (kv.1, withNullZero kv.2))).foldl (perTestStep kb aud) acc =
      ts.foldl (perTestStep kb aud) acc := by
  induction ts with
  | nil => intro _; rfl
  | cons kv rest ih =>
    intro acc
    simp only [List.map_cons, List.foldl_cons, perTestStep_withNullZero]
    exact ih _

theorem perTestMatches_nullify (kb : List InterpEntry) (aud : String) (latest : Assessment) :
    perTestMatches kb aud (nullifyZeroTests latest) = perTestMatches kb aud latest := by
  unfold perTestMatches
  rw [nullifyZeroTests_tests]
  exact foldl_perTestStep_map kb aud latest.tests []

theorem lookupTest_cons (kv : String × TestResult) (rest : List (String × TestResult))
    (k : String) :
    lookupTest (kv :: rest) k = if kv.1 == k then some kv.2 else lookupTest rest k := by
  unfold lookupTest
  cases hk : kv.1 == k <;> simp [List.find?, hk]

theorem lookupTest_map_nullify (ts : List (String × TestResult)) (k : String) :
    lookupTest (ts.map (fun kv => (kv.1, withNullZero kv.2))) k =
      (lookupTest ts k).map withNullZero := by
  induction ts with
  | nil => rfl
  | cons kv rest ih =>
    rw [List.map_cons, lookupTest_cons, lookupTest_cons]
    by_cases hk : (kv.1 == k) = true
    · simp [hk]
    · simp [hk, ih]

theorem compositeMatches_nullify (kb : List InterpEntry) (aud : String)
    (latest : Assessment) :
    compositeMatches kb aud (nullifyZeroTests latest) = compositeMatches kb aud latest := by
  unfold compositeMatches
  rw [nullifyZeroTests_tests, lookupTest_map_nullify, lookupTest_map_nullify]
  rcases hr : lookupTest latest.tests "RLI" with _ | rli <;>
    rcases he : lookupTest latest.tests "ELI" with _ | eli
  · rfl
  · rfl
  · rfl
  · simp only [Option.map_some']
    rcases hrs : rli.standardScore with _ | rs
    · simp [withNullZero_standardScore, hrs]
    · by_cases hr0 : rs = 0
      · subst hr0
        rcases hes : eli.standardScore with _ | es <;>
          simp [withNullZero_standardScore, hrs, hes]
      · rcases hes : eli.standardScore with _ | es
        · simp [withNullZero_standardScore, hrs, hes, hr0]
        · by_cases he0 : es = 0
          · subst he0
            simp [withNullZero_standardScore, hrs, hes, hr0]
          · simp [withNullZero_standardScore, hrs, hes, hr0, he0]

theorem retrieveAll_nullify (kb : List InterpEntry) (aud : String)
    (assessments : List Assessment) :
    (retrieveAllInterpretations kb (assessments.map nullifyZeroTests) aud).1 =
      (retrieveAllInterpretations kb assessments aud).1 := by
  unfold retrieveAllInterpretations
  by_cases h : assessments.isEmpty = true
  · rw [List.isEmpty_iff.mp h]
    rfl
  · have h2 : ¬(assessments.map nullifyZeroTests).isEmpty = true := by
      cases assessments with
      | nil => simp at h
      | cons a as => simp
    rw [if_neg h2, if_neg h, sortByDateDesc_map_nullify]
    rcases hs : sortByDateDesc assessments with _ | ⟨latest, rest⟩
    · rfl
    · simp only [List.map_cons]
      show perTestMatches kb aud (nullifyZeroTests latest) ++
          compositeMatches kb aud (nullifyZeroTests latest) =
        perTestMatches kb aud latest ++ compositeMatches kb aud latest
      rw [perTestMatches_nullify, compositeMatches_nullify]

theorem assembleGroupStep_nullify (latest : Assessment)
    (gacc : List TestInsight × List InterpEntry) (entry : InterpEntry) :
    assembleGroupStep (nullifyZeroTests latest) gacc entry =
      assembleGroupStep latest gacc entry := by
  unfold assembleGroupStep
  by_cases hc : entry.test_type = "Composite Comparison"
  · rw [if_pos hc, if_pos hc]
  · rw [if_neg hc, if_neg hc, nullifyZeroTests_tests, lookupTest_map_nullify]
    rcases hl : lookupTest latest.tests entry.test_abbreviation with _ | td
    · rfl
    · simp only [Option.map_some']
      rcases hts : td.standardScore with _ | q
      · simp [withNullZero_standardScore, hts]
      · by_cases h0 : q = 0
        · subst h0
          simp [withNullZero_standardScore, hts]
        · simp [withNullZero_standardScore, hts, h0]

theorem foldl_fun_congr {α β : Type} (f g : β → α → β) (h : ∀ b a, f b a = g b a) :
    ∀ (l : List α) (init : β), l.foldl f init = l.foldl g init := by
  intro l
  induction l with
  | nil => intro _; rfl
  | cons x xs ih =>
    intro init
    simp only [List.foldl_cons, h]
    exact ih _

theorem assembleComparisonsBlock_nullify (latest : Assessment) (ce : List InterpEntry) :
    assembleComparisonsBlock (nullifyZeroTests latest) ce =
      assembleComparisonsBlock latest ce := by
  unfold assembleComparisonsBlock
  split_ifs with hce
  · rfl
  · rw [nullifyZeroTests_tests, lookupTest_map_nullify, lookupTest_map_nullify]
    rcases hr : lookupTest latest.tests "RLI" with _ | rli <;>
      rcases he : lookupTest latest.tests "ELI" with _ | eli
    · rfl
    · rfl
    · rfl
    · simp only [Option.map_some']
      rcases hrs : rli.standardScore with _ | rs
      · simp [withNullZero_standardScore, hrs]
      · by_cases hr0 : rs = 0
        · subst hr0
          rcases hes : eli.standardScore with _ | es <;>
            simp [withNullZero_standardScore, hrs, hes]
        · rcases hes : eli.standardScore with _ | es
          · simp [withNullZero_standardScore, hrs, hes, hr0]
          · by_cases he0 : es = 0
            · subst he0
              simp [withNullZero_standardScore, hrs, hes, hr0]
            · simp [withNullZero_standardScore, hrs, hes, hr0, he0]

theorem assembleCompleteReport_nullify (student : Option StudentRef)
    (assessments : List Assessment) (entries : List InterpEntry) (aud : String) :
    (assembleCompleteReport student (assessments.map nullifyZeroTests) entries aud).1 =
      (assembleCompleteReport student assessments entries aud).1 := by
  unfold assembleCompleteReport
  by_cases h : assessments.isEmpty = true
  · rw [List.isEmpty_iff.mp h]
    rfl
  · have h2 : ¬(assessments.map nullifyZeroTests).isEmpty = true := by
      cases assessments with
      | nil => simp at h
      | cons a as => simp
    by_cases hent : entries.isEmpty = true
    · rw [if_pos (Or.inr hent), if_pos (Or.inr hent)]
    · rw [if_neg (fun hor => Or.elim hor h2 hent),
        if_neg (fun hor => Or.elim hor h hent), sortByDateDesc_map_nullify]
      rcases hs : sortByDateDesc assessments with _ | ⟨latest, rest⟩
      · rfl
      · simp only [List.map_cons]
        have hfold : entries.foldl (assembleGroupStep (nullifyZeroTests latest)) ([], []) =
            entries.foldl (assembleGroupStep latest) ([], []) :=
          foldl_fun_congr _ _ (fun b a => assembleGroupStep_nullify latest b a)
            entries ([], [])
        rw [hfold, assembleComparisonsBlock_nullify, nullifyZeroTests_date]

/-- Claim C10: a standard score of exactly 0 — a present numeric value,
not an absent one — is treated like a missing score at every matching
entry point, because the guards test truthiness rather than
non-nullness: `retrieveTestInterpretations` returns `[]` for it; the
per-test loop of `retrieveAllInterpretations` skips a test whose stored
standard score is 0 whatever the other tests hold, and its composite
block is skipped whenever the RLI (or the ELI) standard score is 0 even
with the other index present and nonzero; the grouping loop and the
comparison block of `assembleCompleteReport` skip the same way; and
consequently replacing every exact-0 standard score by null
(`nullifyZeroTests`) leaves the retrieval result and the assembled
report of arbitrary mixed assessments unchanged. -/
theorem zero_standard_score_treated_missing (kb entries : List InterpEntry)
    (tn ta aud : String) (assessments : List Assessment) (student : Option StudentRef) :
    retrieveTestInterpretations kb tn ta (some 0) aud = [] ∧
    (∀ (acc : List InterpEntry) (kv : String × TestResult),
      kv.2.standardScore = some 0 → perTestStep kb aud acc kv = acc) ∧
    (∀ (latest : Assessment) (rli : TestResult),
      lookupTest latest.tests "RLI" = some rli → rli.standardScore = some 0 →
      compositeMatches kb aud latest = []) ∧
    (∀ (latest : Assessment) (eli : TestResult),
      lookupTest latest.tests "ELI" = some eli → eli.standardScore = some 0 →
      compositeMatches kb aud latest = []) ∧
    (∀ (latest : Assessment) (gacc : List TestInsight × List InterpEntry)
      (entry : InterpEntry) (td : TestResult),
      entry.test_type ≠ "Composite Comparison" →
      lookupTest latest.tests entry.test_abbreviation = some td →
      td.standardScore = some 0 →
      assembleGroupStep latest gacc entry = gacc) ∧
    (∀ (latest : Assessment) (ce : List InterpEntry) (rli : TestResult),
      lookupTest latest.tests "RLI" = some rli → rli.standardScore = some 0 →
      assembleComparisonsBlock latest ce = []) ∧
    (∀ (latest : Assessment) (ce : List InterpEntry) (eli : TestResult),
      lookupTest latest.tests "ELI" = some eli → eli.standardScore = some 0 →
      assembleComparisonsBlock latest ce = []) ∧
    (retrieveAllInterpretations kb (assessments.map nullifyZeroTests) aud).1 =
      (retrieveAllInterpretations kb assessments aud).1 ∧
    (assembleCompleteReport student (assessments.map nullifyZeroTests) entries aud).1 =
      (assembleCompleteReport student assessments entries aud).1 := by
  refine ⟨rfl,
    fun acc kv h0 => perTestStep_zero_skip kb aud acc kv h0,
    fun latest rli hr h0 => compositeMatches_zero_rli kb aud latest rli hr h0,
    fun latest eli he h0 => compositeMatches_zero_eli kb aud latest eli he h0,
    fun latest gacc entry td hnc hl h0 =>
      assembleGroupStep_zero_skip latest gacc entry td hnc hl h0,
    fun latest ce rli hr h0 => assembleComparisonsBlock_zero_rli latest ce rli hr h0,
    fun latest ce eli he h0 => assembleComparisonsBlock_zero_eli latest ce eli he h0,
    retrieveAll_nullify kb aud assessments,
    assembleCompleteReport_nullify student assessments entries aud⟩

/-- Witness for `zero_standard_score_treated_missing` on mixed data: a
tests object whose RLI stores 0 while ELI stores 110 and CLS stores 70.
The zero-score RLI test is skipped by the per-test loop, the composite
block is skipped despite the nonzero ELI, a rule targeting the zero RLI
test extends nothing in the grouping loop, the comparison block stays
empty, and nulling the zero score leaves the retrieval unchanged. -/
theorem zero_standard_score_treated_missing_witness :
    retrieveTestInterpretations [sampleRule] "Core Language Score" "CLS" (some 0) "clinician" = [] ∧
    perTestStep [sampleRule] "clinician" []
      ("RLI", sampleTestResult "Receptive Language Index" 0) = [] ∧
    compositeMatches [sampleRule] "clinician" ⟨0, mixedZeroTests⟩ = [] ∧
    assembleGroupStep ⟨0, mixedZeroTests⟩ ([], []) rliRule = ([], []) ∧
    assembleComparisonsBlock ⟨0, mixedZeroTests⟩ [sampleRule] = [] ∧
    (retrieveAllInterpretations [sampleRule]
        ([⟨0, mixedZeroTests⟩].map nullifyZeroTests) "clinician").1 =
      (retrieveAllInterpretations [sampleRule] [⟨0, mixedZeroTests⟩] "clinician").1 :=
  ⟨(zero_standard_score_treated_missing [sampleRule] [sampleRule] "Core Language Score"
      "CLS" "clinician" [⟨0, mixedZeroTests⟩] none).1,
   (zero_standard_score_treated_missing [sampleRule] [sampleRule] "Core Language Score"
      "CLS" "clinician" [⟨0, mixedZeroTests⟩] none).2.1 []
     ("RLI", sampleTestResult "Receptive Language Index" 0) (by decide),
   (zero_standard_score_treated_missing [sampleRule] [sampleRule] "Core Language Score"
      "CLS" "clinician" [⟨0, mixedZeroTests⟩] none).2.2.1 ⟨0, mixedZeroTests⟩
     (sampleTestResult "Receptive Language Index" 0) (by decide) (by decide),
   (zero_standard_score_treated_missing [sampleRule] [sampleRule] "Core Language Score"
      "CLS" "clinician" [⟨0, mixedZeroTests⟩] none).2.2.2.2.1 ⟨0, mixedZeroTests⟩
     ([], []) rliRule (sampleTestResult "Receptive Language Index" 0)
     (by decide) (by decide) (by decide),
   (zero_standard_score_treated_missing [sampleRule] [sampleRule] "Core Language Score"
      "CLS" "clinician" [⟨0, mixedZeroTests⟩] none).2.2.2.2.2.1 ⟨0, mixedZeroTests⟩
     [sampleRule] (sampleTestResult "Receptive Language Index" 0) (by decide) (by decide),
   (zero_standard_score_treated_missing [sampleRule] [sampleRule] "Core Language Score"
      "CLS" "clinician" [⟨0, mixedZeroTests⟩] none).2.2.2.2.2.2.2.1⟩

end ListenAndTalk
